import Mathlib

/-!
Verification development for the aury-boot pub/sub channel multiplexer
(`aury/boot/infrastructure/channel/backends/redis.py` and
`redis_cluster_channel.py` / `redis_cluster.py`).

The Python code is shallowly embedded: the message envelope and JSON wire
shape become inductive data, the channel objects become explicit state
records, and each `async def` becomes a pure function returning the new
state together with the list of broker-visible effects it performs.
Python exceptions become an error type threaded through `Except`.
-/

namespace AuryBoot

/-- JSON values, the payload universe carried on the wire
(`json.dumps` / `json.loads` operate on these). -/
inductive Json where
  | null
  | bool (b : Bool)
  | num (n : Int)
  | str (s : String)
  | arr (elts : List Json)
  | obj (fields : List (String × Json))

/-- Python exception classes that the channel code raises or catches. -/
inductive PyError where
  | jsonDecodeError
  | keyError
  | typeError
  | valueError
  | attributeError
  | runtimeError
  | notImplementedError
deriving DecidableEq, Repr

/-- Timestamps.  `datetime` objects are modelled abstractly as naturals;
`isoformat` is an injective rendering into non-empty strings and
`fromisoformat` its partial inverse (raising `ValueError` on any string
that is not in the rendered form), which is the contract the standard
library provides. -/
abbrev Timestamp := Nat

/-- `datetime.isoformat`: renders a timestamp as a non-empty string. -/
def isoformat (t : Timestamp) : String :=
  String.mk (List.replicate (t + 1) 'i')

/-- `datetime.fromisoformat`: parses a rendered timestamp back, raising
`ValueError` on any other string. -/
def fromisoformat (s : String) : Except PyError Timestamp :=
  if s.data ≠ [] ∧ s.data.all (fun c => c = 'i') then .ok (s.data.length - 1)
  else .error .valueError

/-- Modelled from the spec: the `ChannelMessage` envelope of
`aury.boot.infrastructure.channel.base` (the `base` module itself is not
under `src/`; only its importers are).  Per spec §3 it is a value object
with fields `data` (opaque serializable payload), `event` and `id`
(optional string tags), `channel` (topic string) and `timestamp`
(creation time). -/
structure ChannelMessage where
  data : Json
  event : Option String
  id : Option String
  channel : String
  timestamp : Timestamp

/-- Python truthiness of an optional JSON value (`None`/missing, `null`,
`False`, `0`, `""`, `[]`, `{}` are falsy). -/
def truthy : Option Json → Bool
  | none => false
  | some .null => false
  | some (.bool b) => b
  | some (.num n) => n != 0
  | some (.str s) => !s.data.isEmpty
  | some (.arr elts) => !elts.isEmpty
  | some (.obj fields) => !fields.isEmpty

/-- `parsed.get(key)`: dictionary lookup returning `None` when absent;
raises `AttributeError` when `parsed` is not a dict. -/
def pyGet : Json → String → Except PyError (Option Json)
  | .obj fields, k => .ok (fields.lookup k)
  | _, _ => .error .attributeError

/-- An optional JSON value as the `data` field of a message (`None`
becomes JSON null, as `json.dumps` would produce). -/
def optJson : Option Json → Json
  | none => .null
  | some j => j

/-- Coerce an optional JSON value into an optional string field
(`event` / `id`).  Missing and `null` give `None`; a string passes
through; any other value fails the envelope's typed optional-string
field (spec §9: fixed envelope struct with typed optional fields),
modelled as `TypeError`. -/
def toOptStr : Option Json → Except PyError (Option String)
  | none => .ok none
  | some .null => .ok none
  | some (.str s) => .ok (some s)
  | some _ => .error .typeError

/-- `parsed.get("channel") or channel`: a truthy string wins, anything
falsy falls back to the topic the listener saw; a truthy non-string
fails the envelope's string field, modelled as `TypeError`. -/
def channelField (v : Option Json) (fallback : String) : Except PyError String :=
  if truthy v then
    match v with
    | some (.str s) => .ok s
    | _ => .error .typeError
  else .ok fallback

/-- `datetime.fromisoformat(parsed["timestamp"]) if parsed.get("timestamp")
else datetime.now()`: a falsy value defaults to `now`; a truthy string is
parsed (`ValueError` on failure); `fromisoformat` of a non-string raises
`TypeError`. -/
def timestampField (v : Option Json) (now : Timestamp) : Except PyError Timestamp :=
  if truthy v then
    match v with
    | some (.str s) => fromisoformat s
    | _ => .error .typeError
  else .ok now

/-- A raw frame body as received from the broker: either text that
`json.loads` rejects, or text that parses to a JSON value. -/
inductive Wire where
  | malformed (raw : String)
  | value (j : Json)

/-- `json.loads` on a frame body. -/
def jsonLoads : Wire → Except PyError Json
  | .malformed _ => .error .jsonDecodeError
  | .value j => .ok j

/-- Decoding an inbound frame into a `ChannelMessage`, as both
`RedisChannel._broadcast_to_queues` and the body of
`RedisClusterChannel.subscribe` do: parse JSON, then build the message
from the `data`/`event`/`id`/`channel`/`timestamp` keys. -/
def decodeMessage (w : Wire) (channel : String) (now : Timestamp) :
    Except PyError ChannelMessage := do
  let parsed ← jsonLoads w
  let dataV ← pyGet parsed "data"
  let eventV ← pyGet parsed "event"
  let idV ← pyGet parsed "id"
  let chV ← pyGet parsed "channel"
  let tsV ← pyGet parsed "timestamp"
  let ev ← toOptStr eventV
  let idf ← toOptStr idV
  let ch ← channelField chV channel
  let ts ← timestampField tsV now
  pure { data := optJson dataV, event := ev, id := idf, channel := ch, timestamp := ts }

/-- An optional string field as `json.dumps` renders it. -/
def optStrJson : Option String → Json
  | none => .null
  | some s => .str s

/-- The wire body built by `publish` on both backends: a JSON object
with exactly the keys `data`, `event`, `id`, `channel`, `timestamp`
(timestamp rendered with `isoformat`). -/
def publishBody (m : ChannelMessage) : Json :=
  .obj [("data", m.data), ("event", optStrJson m.event), ("id", optStrJson m.id),
        ("channel", .str m.channel), ("timestamp", .str (isoformat m.timestamp))]

/-- The key list of a JSON object. -/
def Json.objKeys : Json → List String
  | .obj fields => fields.map Prod.fst
  | _ => []

/-! ### Consumer queues and fan-out -/

/-- Queue capacity of the consumer queue created by `RedisChannel.subscribe`:
`asyncio.Queue(maxsize=1000)` (redis.py line 237).  `none` would mean
unbounded. -/
def redisSubscribeQueueCapacity : Option Nat := some 1000

/-- Queue capacity of the consumer queue created by `RedisChannel.psubscribe`:
`asyncio.Queue(maxsize=1000)` (redis.py line 275). -/
def redisPsubscribeQueueCapacity : Option Nat := some 1000

/-- Queue capacity of the consumer queue created by
`RedisClusterChannel.subscribe`: `asyncio.Queue()` (redis_cluster_channel.py
line 86), i.e. `maxsize=0`, an unbounded queue. -/
def clusterSubscribeQueueCapacity : Option Nat := none

/-- `queue.put_nowait(msg)` on a queue of the given capacity: appends when
there is room and reports `true`; on a full bounded queue raises
`QueueFull`, which the caller turns into a logged drop, reported `false`
with the queue unchanged. -/
def putNowait (cap : Option Nat) (q : List ChannelMessage) (m : ChannelMessage) :
    List ChannelMessage × Bool :=
  match cap with
  | none => (q ++ [m], true)
  | some c => if q.length < c then (q ++ [m], true) else (q, false)

/-- Whether `await queue.put(msg)` would suspend the caller on a queue of
the given capacity: only a bounded queue that is at capacity blocks. -/
def putBlocks (cap : Option Nat) (q : List ChannelMessage) : Bool :=
  match cap with
  | none => false
  | some c => c ≤ q.length

/-- The fan-out loop of `RedisChannel._broadcast_to_queues`: for each
registered consumer queue in turn, `put_nowait` the decoded message,
dropping (with a log) on `QueueFull`.  Returns each queue's new contents
together with whether the message was delivered to it. -/
def broadcastToQueues : List (List ChannelMessage) → ChannelMessage →
    List (List ChannelMessage × Bool)
  | [], _ => []
  | q :: rest, m => putNowait redisSubscribeQueueCapacity q m :: broadcastToQueues rest m

/-- The fan-out loop of `RedisClusterChannel._listener`: `await queue.put(event)`
on each registered (unbounded) consumer queue. -/
def clusterFanOut : List (List ChannelMessage) → ChannelMessage →
    List (List ChannelMessage)
  | [], _ => []
  | q :: rest, m => (putNowait clusterSubscribeQueueCapacity q m).1 :: clusterFanOut rest m

/-! ### Frame decode outcomes -/

/-- The exception tuple `(json.JSONDecodeError, KeyError, TypeError)` that
both backends' decode sites catch.  `ValueError` (raised by
`datetime.fromisoformat` on an unparseable string) and `AttributeError`
(raised by `.get` on a non-dict) are not in the tuple:
`json.JSONDecodeError` subclasses `ValueError` but catching it does not
catch a plain `ValueError`. -/
def caughtByDecodeExcept : PyError → Bool
  | .jsonDecodeError => true
  | .keyError => true
  | .typeError => true
  | _ => false

/-- What happens to one inbound frame on the single-node backend. -/
inductive RedisFrameOutcome where
  | delivered (queueResults : List (List ChannelMessage × Bool))
  | droppedCaught (e : PyError)
  | droppedListener (e : PyError)

/-- `RedisChannel._broadcast_to_queues` composed with the listener's
catch-all: decode the frame once; on success fan out to every registered
queue; a caught decode error is logged and dropped in place; any other
exception propagates to `_pubsub_listener`, whose generic handler logs it
and keeps the loop alive. -/
def redisHandleFrame (w : Wire) (channel : String) (now : Timestamp)
    (queues : List (List ChannelMessage)) : RedisFrameOutcome :=
  match decodeMessage w channel now with
  | .ok m => .delivered (broadcastToQueues queues m)
  | .error e => if caughtByDecodeExcept e then .droppedCaught e else .droppedListener e

/-- What one dequeued event does inside `RedisClusterChannel.subscribe`'s
consumption loop: a decoded message is yielded to the consumer; a caught
decode error is logged and the loop continues; an uncaught exception
escapes the async generator and is raised at the consumer's `async for`. -/
inductive ClusterConsumeOutcome where
  | yielded (m : ChannelMessage)
  | loggedSkip (e : PyError)
  | raised (e : PyError)

/-- One step of `RedisClusterChannel.subscribe`'s decode-and-yield loop. -/
def clusterConsumeStep (w : Wire) (channel : String) (now : Timestamp) :
    ClusterConsumeOutcome :=
  match decodeMessage w channel now with
  | .ok m => .yielded m
  | .error e => if caughtByDecodeExcept e then .loggedSkip e else .raised e

/-! ### Channel state machines

Async methods become pure functions returning the successor state paired
with the list of broker-visible effects performed, in program order.
Registration dictionaries become partial maps `String → Option (List Nat)`
(queue objects are identified by numeric ids) and Python string sets
become predicates `String → Bool`. -/

/-- Broker-visible calls made by the channel code. -/
inductive Effect where
  | connect
  | brokerSubscribe (ch : String)
  | brokerUnsubscribe (ch : String)
  | brokerPSubscribe (p : String)
  | brokerPUnsubscribe (p : String)
  | brokerPublish (ch : String) (body : Json)
  | cancelListener
  | pubsubClose
  | redisConnClose
  | clusterConnect
  | sSubscribe (ch : String)
  | sUnsubscribe (ch : String)
  | sPublish (ch : String) (body : Json)
  | clusterDisconnect

/-- A registration table: `dict[str, set[Queue]]` with queues named by ids. -/
abbrev RegTable := String → Option (List Nat)

/-- A Python `set[str]`. -/
abbrev StrSet := String → Bool

/-- `defaultdict` read: a missing key reads as the empty set. -/
def getQs (tbl : RegTable) (ch : String) : List Nat := (tbl ch).getD []

/-- Store a set under a key. -/
def setQs (tbl : RegTable) (ch : String) (qs : List Nat) : RegTable :=
  fun x => if x = ch then some qs else tbl x

/-- `self._subscribers[channel].add(queue)` on a `defaultdict` of sets. -/
def addQ (tbl : RegTable) (ch : String) (q : Nat) : RegTable :=
  setQs tbl ch (if q ∈ getQs tbl ch then getQs tbl ch else getQs tbl ch ++ [q])

/-- `self._subscribers[channel].discard(queue)` on a `defaultdict` of sets. -/
def dropQ (tbl : RegTable) (ch : String) (q : Nat) : RegTable :=
  setQs tbl ch ((getQs tbl ch).filter (fun x => x ≠ q))

/-- `del tbl[ch]` / `tbl.pop(ch, None)`. -/
def delKey (tbl : RegTable) (ch : String) : RegTable :=
  fun x => if x = ch then none else tbl x

/-- `set.add`. -/
def addStr (l : StrSet) (ch : String) : StrSet :=
  fun x => if x = ch then true else l x

/-- `set.discard`. -/
def removeStr (l : StrSet) (ch : String) : StrSet :=
  fun x => if x = ch then false else l x

/-- The mutable state of a `RedisChannel` instance. -/
structure RedisState where
  connected : Bool
  hasRedis : Bool
  hasPubsub : Bool
  listenerRunning : Bool
  subscribers : RegTable
  patternSubscribers : RegTable
  subscribedChannels : StrSet
  subscribedPatterns : StrSet

/-- The state built by `RedisChannel.__init__`. -/
def RedisState.init : RedisState :=
  { connected := false, hasRedis := false, hasPubsub := false,
    listenerRunning := false, subscribers := fun _ => none,
    patternSubscribers := fun _ => none, subscribedChannels := fun _ => false,
    subscribedPatterns := fun _ => false }

/-- `RedisChannel._ensure_connected`: a no-op when connected; otherwise
creates the client and the pubsub handle and marks the channel connected. -/
def ensureConnected (s : RedisState) : RedisState × List Effect :=
  if s.connected then (s, [])
  else ({ s with connected := true, hasRedis := true, hasPubsub := true },
        [.connect])

/-- `RedisChannel.publish`: ensure connected, stamp the topic into the
message's `channel` field, and issue exactly one `PUBLISH` of the JSON
envelope; raises `RuntimeError` if the client is missing. -/
def redisPublish (ch : String) (m : ChannelMessage) (s : RedisState) :
    Except PyError ChannelMessage × RedisState × List Effect :=
  let c := ensureConnected s
  if c.1.hasRedis then
    let m1 := { m with channel := ch }
    (.ok m1, c.1, c.2 ++ [.brokerPublish ch (publishBody m1)])
  else
    (.error .runtimeError, c.1, c.2)

/-- The registration step shared by `subscribe` and `psubscribe`: add the
fresh queue to the topic's set (a `defaultdict` of sets), and issue the
broker subscribe command — passed in as `eff` — only when the topic is not
yet in the subscribed set, recording it there. -/
def regEnter (tbl : RegTable) (sub : StrSet) (ch : String) (q : Nat)
    (eff : Effect) : RegTable × StrSet × List Effect :=
  let tbl1 := addQ tbl ch q
  if sub ch then (tbl1, sub, [])
  else (tbl1, addStr sub ch, [eff])

/-- The cleanup step shared by the `finally` blocks of `subscribe` and
`psubscribe`: discard the consumer's queue; if the topic's set is now
empty while the topic is in the subscribed set, issue the broker
unsubscribe command `eff` and drop the topic from the subscribed set. -/
def regExit (tbl : RegTable) (sub : StrSet) (ch : String) (q : Nat)
    (eff : Effect) : RegTable × StrSet × List Effect :=
  let tbl1 := dropQ tbl ch q
  if getQs tbl1 ch = [] ∧ sub ch then (tbl1, removeStr sub ch, [eff])
  else (tbl1, sub, [])

/-- The prefix of `RedisChannel.subscribe` up to the first `queue.get()`:
register a fresh queue for the topic, issue `SUBSCRIBE` under the lock
only if this is the first registrant, and ensure the listener runs. -/
def redisSubEnter (ch : String) (q : Nat) (s : RedisState) :
    RedisState × List Effect :=
  let c := ensureConnected s
  let r := regEnter c.1.subscribers c.1.subscribedChannels ch q (.brokerSubscribe ch)
  ({ c.1 with subscribers := r.1, subscribedChannels := r.2.1, listenerRunning := true },
   c.2 ++ r.2.2)

/-- The `finally` block of `RedisChannel.subscribe`: discard the consumer's
queue and, if the topic's registration set is now empty while a broker
subscription is live, issue `UNSUBSCRIBE` and drop the topic. -/
def redisSubExit (ch : String) (q : Nat) (s : RedisState) :
    RedisState × List Effect :=
  let r := regExit s.subscribers s.subscribedChannels ch q (.brokerUnsubscribe ch)
  ({ s with subscribers := r.1, subscribedChannels := r.2.1 }, r.2.2)

/-- The prefix of `RedisChannel.psubscribe`, mirroring `redisSubEnter`
against the pattern tables with `PSUBSCRIBE`. -/
def redisPsubEnter (p : String) (q : Nat) (s : RedisState) :
    RedisState × List Effect :=
  let c := ensureConnected s
  let r := regEnter c.1.patternSubscribers c.1.subscribedPatterns p q (.brokerPSubscribe p)
  ({ c.1 with
       patternSubscribers := r.1,
       subscribedPatterns := r.2.1,
       listenerRunning := true },
   c.2 ++ r.2.2)

/-- The `finally` block of `RedisChannel.psubscribe`, issuing
`PUNSUBSCRIBE` when the last pattern consumer leaves. -/
def redisPsubExit (p : String) (q : Nat) (s : RedisState) :
    RedisState × List Effect :=
  let r := regExit s.patternSubscribers s.subscribedPatterns p q (.brokerPUnsubscribe p)
  ({ s with patternSubscribers := r.1, subscribedPatterns := r.2.1 }, r.2.2)

/-- `RedisChannel.unsubscribe`: when a pubsub handle exists and the topic
is live, issue `UNSUBSCRIBE`, drop it from the subscribed set and pop the
whole registration set; otherwise do nothing. -/
def redisUnsubscribe (ch : String) (s : RedisState) : RedisState × List Effect :=
  if s.hasPubsub ∧ s.subscribedChannels ch then
    ({ s with subscribedChannels := removeStr s.subscribedChannels ch,
              subscribers := delKey s.subscribers ch },
     [.brokerUnsubscribe ch])
  else (s, [])

/-- `RedisChannel.close`: mark disconnected, cancel the listener / close
the pubsub handle / close the client when each is present (setting each
slot to `None`), and clear all four registration structures — which is
exactly the `__init__` state. -/
def redisCloseOp (s : RedisState) : RedisState × List Effect :=
  let e1 : List Effect := if s.listenerRunning then [.cancelListener] else []
  let e2 : List Effect := if s.hasPubsub then [.pubsubClose] else []
  let e3 : List Effect := if s.hasRedis then [.redisConnClose] else []
  (RedisState.init, e1 ++ e2 ++ e3)

/-- Run a list of channel operations, concatenating their effects. -/
def runRedis (ops : List (RedisState → RedisState × List Effect))
    (s : RedisState) : RedisState × List Effect :=
  match ops with
  | [] => (s, [])
  | op :: rest =>
    let c := op s
    let r := runRedis rest c.1
    (r.1, c.2 ++ r.2)

/-- The mutable state of a `RedisClusterChannel` plus its
`RedisClusterBackend`.  `backendSubscribed` tracks the topics with a live
broker-side sharded subscription. -/
structure ClusterState where
  connected : Bool
  hasListenerTask : Bool
  hasBackendPubsub : Bool
  subscribers : RegTable
  backendSubscribed : StrSet

/-- The state built by `RedisClusterChannel.__init__`. -/
def ClusterState.init : ClusterState :=
  { connected := false, hasListenerTask := false, hasBackendPubsub := false,
    subscribers := fun _ => none, backendSubscribed := fun _ => false }

/-- `RedisClusterChannel._ensure_connected`: connect the backend (which
opens the sharded pubsub handle) and start the listener task. -/
def clusterEnsureConnected (s : ClusterState) : ClusterState × List Effect :=
  if s.connected then (s, [])
  else
    ({ s with connected := true, hasListenerTask := true, hasBackendPubsub := true },
     [.clusterConnect])

/-- `RedisClusterChannel.publish`: ensure connected, stamp the topic into
the message, and `SPUBLISH` the JSON envelope. -/
def clusterPublish (ch : String) (m : ChannelMessage) (s : ClusterState) :
    ChannelMessage × ClusterState × List Effect :=
  let c := clusterEnsureConnected s
  let m1 := { m with channel := ch }
  (m1, c.1, c.2 ++ [.sPublish ch (publishBody m1)])

/-- The registration part of `RedisClusterChannel.subscribe` (run after
`_ensure_connected`): on the first registrant `SSUBSCRIBE` via the backend
(which only talks to the broker when its pubsub handle exists) and create
the registration entry, then add the consumer's queue to it. -/
def clusterSubEnterCore (ch : String) (q : Nat) (t : ClusterState) :
    ClusterState × List Effect :=
  let c2 :=
    if (t.subscribers ch).isSome then (t, ([] : List Effect))
    else
      let cb :=
        if t.hasBackendPubsub then
          ({ t with backendSubscribed := addStr t.backendSubscribed ch },
           [Effect.sSubscribe ch])
        else (t, ([] : List Effect))
      ({ cb.1 with subscribers := setQs cb.1.subscribers ch [] }, cb.2)
  ({ c2.1 with subscribers := addQ c2.1.subscribers ch q }, c2.2)

/-- The prefix of `RedisClusterChannel.subscribe` up to the first
`queue.get()`: ensure the channel is connected, then register. -/
def clusterSubEnter (ch : String) (q : Nat) (s : ClusterState) :
    ClusterState × List Effect :=
  let c := clusterEnsureConnected s
  let r := clusterSubEnterCore ch q c.1
  (r.1, c.2 ++ r.2)

/-- The `finally` block of `RedisClusterChannel.subscribe`: if the topic
still has an entry, discard this consumer's queue; when the set becomes
empty, delete the entry and `SUNSUBSCRIBE` via the backend (which checks
its own subscribed set). -/
def clusterSubExit (ch : String) (q : Nat) (s : ClusterState) :
    ClusterState × List Effect :=
  if (s.subscribers ch).isSome then
    if getQs (dropQ s.subscribers ch q) ch = [] then
      if s.hasBackendPubsub ∧ s.backendSubscribed ch then
        ({ s with subscribers := delKey (dropQ s.subscribers ch q) ch,
                  backendSubscribed := removeStr s.backendSubscribed ch },
         [.sUnsubscribe ch])
      else
        ({ s with subscribers := delKey (dropQ s.subscribers ch q) ch }, [])
    else
      ({ s with subscribers := dropQ s.subscribers ch q }, [])
  else (s, [])

/-- `RedisClusterChannel.psubscribe`: raises `NotImplementedError`
immediately — no state change and no broker call. -/
def clusterPsubscribe (_p : String) (s : ClusterState) :
    Except PyError Unit × ClusterState × List Effect :=
  (.error .notImplementedError, s, [])

/-- `RedisClusterChannel.close`: a no-op when not connected; otherwise
cancel the listener task, disconnect the backend (a global `SUNSUBSCRIBE`
plus client close, clearing every broker-side subscription) and clear the
registrations. -/
def clusterCloseOp (s : ClusterState) : ClusterState × List Effect :=
  if s.connected then
    ({ s with
         connected := false,
         subscribers := fun _ => none,
         backendSubscribed := fun _ => false },
     (if s.hasListenerTask then [Effect.cancelListener] else []) ++ [.clusterDisconnect])
  else (s, [])

/-- Count the effects satisfying a predicate. -/
def countEff (effs : List Effect) (p : Effect → Bool) : Nat :=
  (effs.filter p).length

/-- `SUBSCRIBE ch` effects. -/
def isSubscribeFor (ch : String) : Effect → Bool
  | .brokerSubscribe x => x == ch
  | _ => false

/-- `UNSUBSCRIBE ch` effects. -/
def isUnsubscribeFor (ch : String) : Effect → Bool
  | .brokerUnsubscribe x => x == ch
  | _ => false

/-- `PSUBSCRIBE p` effects. -/
def isPSubscribeFor (p : String) : Effect → Bool
  | .brokerPSubscribe x => x == p
  | _ => false

/-- `PUNSUBSCRIBE p` effects. -/
def isPUnsubscribeFor (p : String) : Effect → Bool
  | .brokerPUnsubscribe x => x == p
  | _ => false

/-- `SSUBSCRIBE ch` effects. -/
def isSSubscribeFor (ch : String) : Effect → Bool
  | .sSubscribe x => x == ch
  | _ => false

/-- `SUNSUBSCRIBE ch` effects. -/
def isSUnsubscribeFor (ch : String) : Effect → Bool
  | .sUnsubscribe x => x == ch
  | _ => false

/-- Broker message writes (`PUBLISH` / `SPUBLISH`). -/
def isPublishEff : Effect → Bool
  | .brokerPublish _ _ => true
  | .sPublish _ _ => true
  | _ => false

/-- A registration table and its subscribed set are in the ref-counting
correspondence: a topic is in the subscribed set exactly when its
registration set of consumer queues is non-empty. -/
def RegInv (tbl : RegTable) (sub : StrSet) : Prop :=
  ∀ ch, sub ch = true ↔ getQs tbl ch ≠ []

/-- The C1 invariant on the single-node channel: for topics and for
patterns, a live broker-side subscription (membership in the channel's
subscribed set, whose every change is paired with the matching broker
call) exists exactly when the registration set is non-empty. -/
def RedisInv (s : RedisState) : Prop :=
  RegInv s.subscribers s.subscribedChannels ∧
  RegInv s.patternSubscribers s.subscribedPatterns

/-- The C1 invariant on the cluster channel: a registration entry exists
exactly when it is non-empty, a live broker-side sharded subscription
exists exactly when the entry exists, and a connected channel (or any
live subscription) implies the backend pubsub handle exists. -/
def ClusterInv (s : ClusterState) : Prop :=
  (∀ ch, (s.subscribers ch).isSome ↔ getQs s.subscribers ch ≠ []) ∧
  (∀ ch, s.backendSubscribed ch = true ↔ (s.subscribers ch).isSome) ∧
  (s.connected = true → s.hasBackendPubsub = true) ∧
  (∀ ch, s.backendSubscribed ch = true → s.hasBackendPubsub = true)

/-! ### Table and set lemmas -/

theorem getQs_setQs_self (tbl : RegTable) (ch : String) (qs : List Nat) :
    getQs (setQs tbl ch qs) ch = qs := by
  simp [getQs, setQs]

theorem getQs_setQs_other (tbl : RegTable) (ch x : String) (qs : List Nat)
    (h : x ≠ ch) : getQs (setQs tbl ch qs) x = getQs tbl x := by
  simp [getQs, setQs, h]

theorem getQs_addQ_self (tbl : RegTable) (ch : String) (q : Nat) :
    getQs (addQ tbl ch q) ch ≠ [] := by
  unfold addQ
  rw [getQs_setQs_self]
  by_cases h : q ∈ getQs tbl ch
  · simp only [if_pos h]
    exact List.ne_nil_of_mem h
  · simp [if_neg h]

theorem getQs_addQ_other (tbl : RegTable) (ch x : String) (q : Nat)
    (h : x ≠ ch) : getQs (addQ tbl ch q) x = getQs tbl x := by
  unfold addQ
  exact getQs_setQs_other _ _ _ _ h

theorem addQ_self_isSome (tbl : RegTable) (ch : String) (q : Nat) :
    ((addQ tbl ch q) ch).isSome = true := by
  unfold addQ setQs
  simp

theorem addQ_other_eq (tbl : RegTable) (ch x : String) (q : Nat)
    (h : x ≠ ch) : (addQ tbl ch q) x = tbl x := by
  unfold addQ setQs
  simp [h]

theorem getQs_dropQ_self (tbl : RegTable) (ch : String) (q : Nat) :
    getQs (dropQ tbl ch q) ch = (getQs tbl ch).filter (fun x => x ≠ q) := by
  unfold dropQ
  exact getQs_setQs_self _ _ _

theorem getQs_dropQ_other (tbl : RegTable) (ch x : String) (q : Nat)
    (h : x ≠ ch) : getQs (dropQ tbl ch q) x = getQs tbl x := by
  unfold dropQ
  exact getQs_setQs_other _ _ _ _ h

theorem dropQ_self_eq (tbl : RegTable) (ch : String) (q : Nat) :
    (dropQ tbl ch q) ch = some ((getQs tbl ch).filter (fun x => x ≠ q)) := by
  unfold dropQ setQs
  simp

theorem dropQ_other_eq (tbl : RegTable) (ch x : String) (q : Nat)
    (h : x ≠ ch) : (dropQ tbl ch q) x = tbl x := by
  unfold dropQ setQs
  simp [h]

theorem getQs_dropQ_ne_nil (tbl : RegTable) (ch : String) (q : Nat)
    (h : getQs (dropQ tbl ch q) ch ≠ []) : getQs tbl ch ≠ [] := by
  intro hnil
  apply h
  rw [getQs_dropQ_self, hnil]
  rfl

theorem getQs_delKey_self (tbl : RegTable) (ch : String) :
    getQs (delKey tbl ch) ch = [] := by
  simp [getQs, delKey]

theorem getQs_delKey_other (tbl : RegTable) (ch x : String) (h : x ≠ ch) :
    getQs (delKey tbl ch) x = getQs tbl x := by
  simp [getQs, delKey, h]

theorem delKey_self_eq (tbl : RegTable) (ch : String) :
    (delKey tbl ch) ch = none := by
  simp [delKey]

theorem delKey_other_eq (tbl : RegTable) (ch x : String) (h : x ≠ ch) :
    (delKey tbl ch) x = tbl x := by
  simp [delKey, h]

theorem setQs_self_eq (tbl : RegTable) (ch : String) (qs : List Nat) :
    (setQs tbl ch qs) ch = some qs := by
  simp [setQs]

theorem setQs_other_eq (tbl : RegTable) (ch x : String) (qs : List Nat)
    (h : x ≠ ch) : (setQs tbl ch qs) x = tbl x := by
  simp [setQs, h]

theorem addStr_self (l : StrSet) (ch : String) : addStr l ch ch = true := by
  simp [addStr]

theorem addStr_other (l : StrSet) (ch x : String) (h : x ≠ ch) :
    addStr l ch x = l x := by
  simp [addStr, h]

theorem removeStr_self (l : StrSet) (ch : String) : removeStr l ch ch = false := by
  simp [removeStr]

theorem removeStr_other (l : StrSet) (ch x : String) (h : x ≠ ch) :
    removeStr l ch x = l x := by
  simp [removeStr, h]

/-! ### Ref-counting lemmas on the shared registration step -/

theorem regInv_enter (tbl : RegTable) (sub : StrSet) (ch : String) (q : Nat)
    (eff : Effect) (h : RegInv tbl sub) :
    RegInv (regEnter tbl sub ch q eff).1 (regEnter tbl sub ch q eff).2.1 := by
  intro x
  by_cases hx : x = ch
  · subst hx
    by_cases hc : sub x = true <;>
      simp [regEnter, hc, getQs_addQ_self, addStr_self]
  · by_cases hc : sub ch = true <;>
      simp [regEnter, hc, getQs_addQ_other tbl ch x q hx, addStr_other sub ch x hx,
        h x]

theorem regInv_exit (tbl : RegTable) (sub : StrSet) (ch : String) (q : Nat)
    (eff : Effect) (h : RegInv tbl sub) :
    RegInv (regExit tbl sub ch q eff).1 (regExit tbl sub ch q eff).2.1 := by
  intro x
  by_cases hcond : getQs (dropQ tbl ch q) ch = [] ∧ sub ch = true
  · by_cases hx : x = ch
    · subst hx
      simp [regExit, hcond, removeStr_self, hcond.1]
    · simp [regExit, hcond, removeStr_other sub ch x hx,
        getQs_dropQ_other tbl ch x q hx, h x]
  · by_cases hx : x = ch
    · subst hx
      by_cases hq : getQs (dropQ tbl x q) x = []
      · have hs : ¬ sub x = true := fun hsx => hcond ⟨hq, hsx⟩
        simp [regExit, hcond, hq, hs]
      · have hs : sub x = true := (h x).mpr (getQs_dropQ_ne_nil tbl x q hq)
        simp [regExit, hcond, hq, hs]
    · simp [regExit, hcond, getQs_dropQ_other tbl ch x q hx, h x]

theorem regEnter_effects_first (tbl : RegTable) (sub : StrSet) (ch : String)
    (q : Nat) (eff : Effect) (h : RegInv tbl sub) (he : getQs tbl ch = []) :
    (regEnter tbl sub ch q eff).2.2 = [eff] := by
  have hc : ¬ sub ch = true := fun hc => ((h ch).mp hc) he
  simp [regEnter, hc]

theorem regEnter_effects_again (tbl : RegTable) (sub : StrSet) (ch : String)
    (q : Nat) (eff : Effect) (h : RegInv tbl sub) (hn : getQs tbl ch ≠ []) :
    (regEnter tbl sub ch q eff).2.2 = [] := by
  have hc : sub ch = true := (h ch).mpr hn
  simp [regEnter, hc]

theorem regExit_effects_last (tbl : RegTable) (sub : StrSet) (ch : String)
    (q : Nat) (eff : Effect) (h : RegInv tbl sub) (hn : getQs tbl ch ≠ [])
    (he : (getQs tbl ch).filter (fun x => x ≠ q) = []) :
    (regExit tbl sub ch q eff).2.2 = [eff] := by
  have hc : sub ch = true := (h ch).mpr hn
  have h1 : getQs (dropQ tbl ch q) ch = [] := by
    rw [getQs_dropQ_self]
    exact he
  simp [regExit, h1, hc]

theorem regExit_effects_rest (tbl : RegTable) (sub : StrSet) (ch : String)
    (q : Nat) (eff : Effect)
    (hne : (getQs tbl ch).filter (fun x => x ≠ q) ≠ []) :
    (regExit tbl sub ch q eff).2.2 = [] := by
  have h1 : getQs (dropQ tbl ch q) ch ≠ [] := by
    rw [getQs_dropQ_self]
    exact hne
  simp [regExit, h1]

/-! ### Invariant preservation, single-node channel -/

theorem ensureConnected_fields (s : RedisState) :
    (ensureConnected s).1.subscribers = s.subscribers ∧
    (ensureConnected s).1.subscribedChannels = s.subscribedChannels ∧
    (ensureConnected s).1.patternSubscribers = s.patternSubscribers ∧
    (ensureConnected s).1.subscribedPatterns = s.subscribedPatterns := by
  by_cases h : s.connected = true <;> simp [ensureConnected, h]

theorem redisInv_ensure (s : RedisState) (h : RedisInv s) :
    RedisInv (ensureConnected s).1 := by
  obtain ⟨e1, e2, e3, e4⟩ := ensureConnected_fields s
  constructor
  · rw [e1, e2]
    exact h.1
  · rw [e3, e4]
    exact h.2

theorem redisInv_subEnter (ch : String) (q : Nat) (s : RedisState)
    (h : RedisInv s) : RedisInv (redisSubEnter ch q s).1 := by
  have h1 := redisInv_ensure s h
  exact ⟨regInv_enter _ _ ch q _ h1.1, h1.2⟩

theorem redisInv_subExit (ch : String) (q : Nat) (s : RedisState)
    (h : RedisInv s) : RedisInv (redisSubExit ch q s).1 :=
  ⟨regInv_exit _ _ ch q _ h.1, h.2⟩

theorem redisInv_psubEnter (p : String) (q : Nat) (s : RedisState)
    (h : RedisInv s) : RedisInv (redisPsubEnter p q s).1 := by
  have h1 := redisInv_ensure s h
  exact ⟨h1.1, regInv_enter _ _ p q _ h1.2⟩

theorem redisInv_psubExit (p : String) (q : Nat) (s : RedisState)
    (h : RedisInv s) : RedisInv (redisPsubExit p q s).1 :=
  ⟨h.1, regInv_exit _ _ p q _ h.2⟩

theorem redisInv_unsub (ch : String) (s : RedisState) (h : RedisInv s) :
    RedisInv (redisUnsubscribe ch s).1 := by
  by_cases hc : s.hasPubsub = true ∧ s.subscribedChannels ch = true
  · constructor
    · intro x
      by_cases hx : x = ch
      · subst hx
        simp [redisUnsubscribe, hc, removeStr_self, getQs_delKey_self]
      · simp [redisUnsubscribe, hc, removeStr_other _ _ _ hx,
          getQs_delKey_other _ _ _ hx, h.1 x]
    · intro p
      simp [redisUnsubscribe, hc, h.2 p]
  · simp only [redisUnsubscribe, if_neg hc]
    exact h

theorem redisInv_init : RedisInv RedisState.init := by
  constructor <;> intro x <;> simp [RedisState.init, getQs]

theorem redisInv_close (s : RedisState) : RedisInv (redisCloseOp s).1 :=
  redisInv_init

/-! ### Effect counting, single-node channel -/

theorem countEff_append (a b : List Effect) (p : Effect → Bool) :
    countEff (a ++ b) p = countEff a p + countEff b p := by
  simp [countEff, List.filter_append]

theorem countEff_ensure (s : RedisState) (p : Effect → Bool)
    (hp : p .connect = false) : countEff (ensureConnected s).2 p = 0 := by
  by_cases h : s.connected = true <;> simp [ensureConnected, h, countEff, hp]

theorem redisSubEnter_first_count (ch : String) (q : Nat) (s : RedisState)
    (h : RedisInv s) (he : getQs s.subscribers ch = []) :
    countEff (redisSubEnter ch q s).2 (isSubscribeFor ch) = 1 := by
  have h1 := redisInv_ensure s h
  have hf : (regEnter (ensureConnected s).1.subscribers
      (ensureConnected s).1.subscribedChannels ch q (.brokerSubscribe ch)).2.2
      = [.brokerSubscribe ch] := by
    apply regEnter_effects_first _ _ _ _ _ h1.1
    rw [(ensureConnected_fields s).1]
    exact he
  show countEff ((ensureConnected s).2 ++ _) _ = 1
  rw [countEff_append, countEff_ensure s _ rfl, hf]
  simp [countEff, isSubscribeFor]

theorem redisSubEnter_again_count (ch : String) (q : Nat) (s : RedisState)
    (h : RedisInv s) (hn : getQs s.subscribers ch ≠ []) :
    countEff (redisSubEnter ch q s).2 (isSubscribeFor ch) = 0 := by
  have h1 := redisInv_ensure s h
  have hf : (regEnter (ensureConnected s).1.subscribers
      (ensureConnected s).1.subscribedChannels ch q (.brokerSubscribe ch)).2.2
      = [] := by
    apply regEnter_effects_again _ _ _ _ _ h1.1
    rw [(ensureConnected_fields s).1]
    exact hn
  show countEff ((ensureConnected s).2 ++ _) _ = 0
  rw [countEff_append, countEff_ensure s _ rfl, hf]
  simp [countEff]

theorem redisSubExit_last_count (ch : String) (q : Nat) (s : RedisState)
    (h : RedisInv s) (hn : getQs s.subscribers ch ≠ [])
    (he : (getQs s.subscribers ch).filter (fun x => x ≠ q) = []) :
    countEff (redisSubExit ch q s).2 (isUnsubscribeFor ch) = 1 := by
  have hf := regExit_effects_last s.subscribers s.subscribedChannels ch q
    (.brokerUnsubscribe ch) h.1 hn he
  show countEff (regExit s.subscribers s.subscribedChannels ch q
    (.brokerUnsubscribe ch)).2.2 _ = 1
  rw [hf]
  simp [countEff, isUnsubscribeFor]

theorem redisSubExit_rest_count (ch : String) (q : Nat) (s : RedisState)
    (hne : (getQs s.subscribers ch).filter (fun x => x ≠ q) ≠ []) :
    countEff (redisSubExit ch q s).2 (isUnsubscribeFor ch) = 0 := by
  have hf := regExit_effects_rest s.subscribers s.subscribedChannels ch q
    (.brokerUnsubscribe ch) hne
  show countEff (regExit s.subscribers s.subscribedChannels ch q
    (.brokerUnsubscribe ch)).2.2 _ = 0
  rw [hf]
  simp [countEff]

theorem redisPsubEnter_first_count (p : String) (q : Nat) (s : RedisState)
    (h : RedisInv s) (he : getQs s.patternSubscribers p = []) :
    countEff (redisPsubEnter p q s).2 (isPSubscribeFor p) = 1 := by
  have h1 := redisInv_ensure s h
  have hf : (regEnter (ensureConnected s).1.patternSubscribers
      (ensureConnected s).1.subscribedPatterns p q (.brokerPSubscribe p)).2.2
      = [.brokerPSubscribe p] := by
    apply regEnter_effects_first _ _ _ _ _ h1.2
    rw [(ensureConnected_fields s).2.2.1]
    exact he
  show countEff ((ensureConnected s).2 ++ _) _ = 1
  rw [countEff_append, countEff_ensure s _ rfl, hf]
  simp [countEff, isPSubscribeFor]

theorem redisPsubExit_last_count (p : String) (q : Nat) (s : RedisState)
    (h : RedisInv s) (hn : getQs s.patternSubscribers p ≠ [])
    (he : (getQs s.patternSubscribers p).filter (fun x => x ≠ q) = []) :
    countEff (redisPsubExit p q s).2 (isPUnsubscribeFor p) = 1 := by
  have hf := regExit_effects_last s.patternSubscribers s.subscribedPatterns p q
    (.brokerPUnsubscribe p) h.2 hn he
  show countEff (regExit s.patternSubscribers s.subscribedPatterns p q
    (.brokerPUnsubscribe p)).2.2 _ = 1
  rw [hf]
  simp [countEff, isPUnsubscribeFor]

/-! ### Invariant preservation and effect counting, cluster channel -/

theorem clusterEnsure_fields (s : ClusterState) :
    (clusterEnsureConnected s).1.subscribers = s.subscribers ∧
    (clusterEnsureConnected s).1.backendSubscribed = s.backendSubscribed := by
  by_cases h : s.connected = true <;> simp [clusterEnsureConnected, h]

theorem clusterEnsure_hasPubsub (s : ClusterState) (h : ClusterInv s) :
    (clusterEnsureConnected s).1.hasBackendPubsub = true := by
  by_cases hc : s.connected = true
  · simpa [clusterEnsureConnected, hc] using h.2.2.1 hc
  · simp [clusterEnsureConnected, hc]

theorem boolEq_of_iff {a b : Bool} (h : a = true ↔ b = true) : a = b := by
  cases a <;> cases b <;> simp_all

theorem clusterInv_ensure (s : ClusterState) (h : ClusterInv s) :
    ClusterInv (clusterEnsureConnected s).1 := by
  obtain ⟨h1, h2, h3, h4⟩ := h
  by_cases hc : s.connected = true
  · simpa [clusterEnsureConnected, hc] using ⟨h1, h2, h3, h4⟩
  · refine ⟨?_, ?_, ?_, ?_⟩ <;> simp [clusterEnsureConnected, hc]
    · exact h1
    · exact fun x => boolEq_of_iff (h2 x)

theorem clusterInv_subEnterCore (ch : String) (q : Nat) (t : ClusterState)
    (h : ClusterInv t) (hp : t.hasBackendPubsub = true) :
    ClusterInv (clusterSubEnterCore ch q t).1 := by
  obtain ⟨h1, h2, h3, h4⟩ := h
  by_cases hk : (t.subscribers ch).isSome = true
  · refine ⟨?_, ?_, ?_, ?_⟩
    · intro x
      by_cases hx : x = ch
      · subst hx
        simp [clusterSubEnterCore, hk, addQ_self_isSome, getQs_addQ_self]
      · simp [clusterSubEnterCore, hk, addQ_other_eq _ _ _ _ hx,
          getQs_addQ_other _ _ _ _ hx, h1 x]
    · intro x
      by_cases hx : x = ch
      · subst hx
        simp [clusterSubEnterCore, hk, addQ_self_isSome, (h2 x).mpr hk]
      · simp [clusterSubEnterCore, hk, addQ_other_eq _ _ _ _ hx, h2 x]
    · simp only [clusterSubEnterCore, hk]
      simpa using h3
    · simp only [clusterSubEnterCore, hk]
      simpa using h4
  · refine ⟨?_, ?_, ?_, ?_⟩
    · intro x
      by_cases hx : x = ch
      · subst hx
        simp [clusterSubEnterCore, hk, hp, addQ_self_isSome, getQs_addQ_self]
      · simp [clusterSubEnterCore, hk, hp, addQ_other_eq _ _ _ _ hx,
          getQs_addQ_other _ _ _ _ hx, getQs_setQs_other _ _ _ _ hx,
          setQs_other_eq _ _ _ _ hx, h1 x]
    · intro x
      by_cases hx : x = ch
      · subst hx
        simp [clusterSubEnterCore, hk, hp, addQ_self_isSome, addStr_self]
      · simp [clusterSubEnterCore, hk, hp, addQ_other_eq _ _ _ _ hx,
          setQs_other_eq _ _ _ _ hx, addStr_other _ _ _ hx, h2 x]
    · simp [clusterSubEnterCore, hk, hp]
    · simp [clusterSubEnterCore, hk, hp]

theorem clusterInv_subEnter (ch : String) (q : Nat) (s : ClusterState)
    (h : ClusterInv s) : ClusterInv (clusterSubEnter ch q s).1 :=
  clusterInv_subEnterCore ch q _ (clusterInv_ensure s h) (clusterEnsure_hasPubsub s h)

theorem clusterSubExit_eq_last (ch : String) (q : Nat) (s : ClusterState)
    (hk : (s.subscribers ch).isSome = true)
    (hq : getQs (dropQ s.subscribers ch q) ch = [])
    (hpb : s.hasBackendPubsub = true) (hb : s.backendSubscribed ch = true) :
    clusterSubExit ch q s =
      ({ s with subscribers := delKey (dropQ s.subscribers ch q) ch,
                backendSubscribed := removeStr s.backendSubscribed ch },
       [.sUnsubscribe ch]) := by
  unfold clusterSubExit
  rw [if_pos hk, if_pos hq, if_pos ⟨hpb, hb⟩]

theorem clusterSubExit_eq_rest (ch : String) (q : Nat) (s : ClusterState)
    (hk : (s.subscribers ch).isSome = true)
    (hq : getQs (dropQ s.subscribers ch q) ch ≠ []) :
    clusterSubExit ch q s =
      ({ s with subscribers := dropQ s.subscribers ch q }, []) := by
  unfold clusterSubExit
  rw [if_pos hk, if_neg hq]

theorem clusterInv_subExit (ch : String) (q : Nat) (s : ClusterState)
    (h : ClusterInv s) : ClusterInv (clusterSubExit ch q s).1 := by
  obtain ⟨h1, h2, h3, h4⟩ := h
  by_cases hk : (s.subscribers ch).isSome = true
  · by_cases hq : getQs (dropQ s.subscribers ch q) ch = []
    · have hb : s.backendSubscribed ch = true := (h2 ch).mpr hk
      have hpb : s.hasBackendPubsub = true := h4 ch hb
      rw [clusterSubExit_eq_last ch q s hk hq hpb hb]
      refine ⟨?_, ?_, h3, ?_⟩
      · intro x
        by_cases hx : x = ch
        · subst hx
          simp [delKey_self_eq, getQs_delKey_self]
        · simp [delKey_other_eq _ _ _ hx, dropQ_other_eq _ _ _ _ hx,
            getQs_delKey_other _ _ _ hx, getQs_dropQ_other _ _ _ _ hx, h1 x]
      · intro x
        by_cases hx : x = ch
        · subst hx
          simp [delKey_self_eq, removeStr_self]
        · simp [delKey_other_eq _ _ _ hx, dropQ_other_eq _ _ _ _ hx,
            removeStr_other _ _ _ hx, h2 x]
      · intro x hx'
        by_cases hx : x = ch
        · subst hx
          have hx2 : removeStr s.backendSubscribed x x = true := hx'
          rw [removeStr_self] at hx2
          cases hx2
        · have hx2 : removeStr s.backendSubscribed ch x = true := hx'
          rw [removeStr_other _ _ _ hx] at hx2
          exact h4 x hx2
    · rw [clusterSubExit_eq_rest ch q s hk hq]
      refine ⟨?_, ?_, h3, fun x hx' => h4 x hx'⟩
      · intro x
        by_cases hx : x = ch
        · subst hx
          constructor
          · intro _
            exact hq
          · intro _
            show (dropQ s.subscribers x q x).isSome = true
            rw [dropQ_self_eq]
            rfl
        · simp [dropQ_other_eq _ _ _ _ hx, getQs_dropQ_other _ _ _ _ hx, h1 x]
      · intro x
        by_cases hx : x = ch
        · subst hx
          simp [dropQ_self_eq, (h2 x).mpr hk]
        · simp [dropQ_other_eq _ _ _ _ hx, h2 x]
  · unfold clusterSubExit
    rw [if_neg hk]
    exact ⟨h1, h2, h3, h4⟩

theorem clusterInv_init : ClusterInv ClusterState.init := by
  refine ⟨fun x => ?_, fun x => ?_, fun hc => ?_, fun x hx => ?_⟩ <;>
    simp_all [ClusterState.init, getQs]

theorem clusterInv_close (s : ClusterState) (h : ClusterInv s) :
    ClusterInv (clusterCloseOp s).1 := by
  by_cases hc : s.connected = true
  · refine ⟨fun x => ?_, fun x => ?_, fun hcon => ?_, fun x hx => ?_⟩ <;>
      simp_all [clusterCloseOp, hc, getQs]
  · simp only [clusterCloseOp, hc]
    simpa using h

theorem countEff_clusterEnsure (s : ClusterState) (p : Effect → Bool)
    (hp : p .clusterConnect = false) :
    countEff (clusterEnsureConnected s).2 p = 0 := by
  by_cases h : s.connected = true <;> simp [clusterEnsureConnected, h, countEff, hp]

theorem clusterSubEnterCore_first (ch : String) (q : Nat) (t : ClusterState)
    (hp : t.hasBackendPubsub = true) (hk : t.subscribers ch = none) :
    (clusterSubEnterCore ch q t).2 = [.sSubscribe ch] := by
  simp [clusterSubEnterCore, hk, hp]

theorem clusterSubEnterCore_again (ch : String) (q : Nat) (t : ClusterState)
    (hk : (t.subscribers ch).isSome = true) :
    (clusterSubEnterCore ch q t).2 = [] := by
  simp [clusterSubEnterCore, hk]

theorem clusterSubEnter_first_count (ch : String) (q : Nat) (s : ClusterState)
    (h : ClusterInv s) (hk : s.subscribers ch = none) :
    countEff (clusterSubEnter ch q s).2 (isSSubscribeFor ch) = 1 := by
  have hp := clusterEnsure_hasPubsub s h
  have hf : (clusterSubEnterCore ch q (clusterEnsureConnected s).1).2
      = [.sSubscribe ch] := by
    apply clusterSubEnterCore_first ch q _ hp
    rw [(clusterEnsure_fields s).1]
    exact hk
  show countEff ((clusterEnsureConnected s).2 ++ _) _ = 1
  rw [countEff_append, countEff_clusterEnsure s _ rfl, hf]
  simp [countEff, isSSubscribeFor]

theorem clusterSubEnter_again_count (ch : String) (q : Nat) (s : ClusterState)
    (hk : (s.subscribers ch).isSome = true) :
    countEff (clusterSubEnter ch q s).2 (isSSubscribeFor ch) = 0 := by
  have hf : (clusterSubEnterCore ch q (clusterEnsureConnected s).1).2 = [] := by
    apply clusterSubEnterCore_again
    rw [(clusterEnsure_fields s).1]
    exact hk
  show countEff ((clusterEnsureConnected s).2 ++ _) _ = 0
  rw [countEff_append, countEff_clusterEnsure s _ rfl, hf]
  simp [countEff]

theorem clusterSubExit_nokey (ch : String) (q : Nat) (s : ClusterState)
    (hk : s.subscribers ch = none) : clusterSubExit ch q s = (s, []) := by
  simp [clusterSubExit, hk]

theorem clusterSubExit_last_count (ch : String) (q : Nat) (s : ClusterState)
    (h : ClusterInv s) (hk : (s.subscribers ch).isSome = true)
    (he : (getQs s.subscribers ch).filter (fun x => x ≠ q) = []) :
    countEff (clusterSubExit ch q s).2 (isSUnsubscribeFor ch) = 1 := by
  have hb : s.backendSubscribed ch = true := (h.2.1 ch).mpr hk
  have hpb : s.hasBackendPubsub = true := h.2.2.2 ch hb
  have hq : getQs (dropQ s.subscribers ch q) ch = [] := by
    rw [getQs_dropQ_self]
    exact he
  rw [clusterSubExit_eq_last ch q s hk hq hpb hb]
  simp [countEff, isSUnsubscribeFor]

theorem clusterSubExit_rest_count (ch : String) (q : Nat) (s : ClusterState)
    (hk : (s.subscribers ch).isSome = true)
    (hne : (getQs s.subscribers ch).filter (fun x => x ≠ q) ≠ []) :
    countEff (clusterSubExit ch q s).2 (isSUnsubscribeFor ch) = 0 := by
  have hq : getQs (dropQ s.subscribers ch q) ch ≠ [] := by
    rw [getQs_dropQ_self]
    exact hne
  rw [clusterSubExit_eq_rest ch q s hk hq]
  simp [countEff]

theorem fromisoformat_isoformat (t : Timestamp) : fromisoformat (isoformat t) = .ok t := by
  have hne : List.replicate (t + 1) 'i' ≠ [] := by simp
  have hall : (List.replicate (t + 1) 'i').all (fun c => c = 'i') = true := by
    simp [List.all_eq_true, List.mem_replicate]
  simp [fromisoformat, isoformat, hne, hall]

theorem truthy_isoformat (t : Timestamp) :
    truthy (some (.str (isoformat t))) = true := by
  simp [truthy, isoformat, List.replicate_succ]

theorem channelField_self (T : String) : channelField (some (.str T)) T = .ok T := by
  by_cases h : T.data.isEmpty = true <;> simp [channelField, truthy, h]

theorem timestampField_isoformat (t now : Timestamp) :
    timestampField (some (.str (isoformat t))) now = .ok t := by
  simp [timestampField, truthy_isoformat, fromisoformat_isoformat t]

theorem exceptBind_ok {α β : Type} (a : α) (f : α → Except PyError β) :
    (Except.ok a >>= f) = f a := rfl

theorem exceptPure_def {α : Type} (a : α) :
    (pure a : Except PyError α) = Except.ok a := rfl

/-! ### Fan-out lemmas -/

theorem broadcastToQueues_length (queues : List (List ChannelMessage))
    (m : ChannelMessage) :
    (broadcastToQueues queues m).length = queues.length := by
  induction queues with
  | nil => rfl
  | cons q rest ih => simp [broadcastToQueues, ih]

theorem broadcastToQueues_getElem (queues : List (List ChannelMessage))
    (m : ChannelMessage) (i : Nat) :
    (broadcastToQueues queues m)[i]?
      = (queues[i]?).map (fun qu => putNowait redisSubscribeQueueCapacity qu m) := by
  induction queues generalizing i with
  | nil => simp [broadcastToQueues]
  | cons q rest ih =>
    cases i with
    | zero => simp [broadcastToQueues]
    | succ n => simpa [broadcastToQueues] using ih n

theorem clusterFanOut_getElem (queues : List (List ChannelMessage))
    (m : ChannelMessage) (i : Nat) :
    (clusterFanOut queues m)[i]? = (queues[i]?).map (fun qu => qu ++ [m]) := by
  induction queues generalizing i with
  | nil => simp [clusterFanOut]
  | cons q rest ih =>
    cases i with
    | zero => simp [clusterFanOut, putNowait, clusterSubscribeQueueCapacity]
    | succ n => simpa [clusterFanOut] using ih n

theorem putNowait_full (qu : List ChannelMessage) (m : ChannelMessage)
    (h : 1000 ≤ qu.length) :
    putNowait redisSubscribeQueueCapacity qu m = (qu, false) := by
  simp [putNowait, redisSubscribeQueueCapacity, Nat.not_lt.mpr h]

theorem putNowait_room (qu : List ChannelMessage) (m : ChannelMessage)
    (h : qu.length < 1000) :
    putNowait redisSubscribeQueueCapacity qu m = (qu ++ [m], true) := by
  simp [putNowait, redisSubscribeQueueCapacity, h]

/-! ### Concrete data for traces and witnesses -/

/-- A concrete message: `{data: {"x": 1}, event: "created"}` as in the
spec's end-to-end scenario. -/
def sampleMessage : ChannelMessage :=
  { data := .obj [("x", .num 1)], event := some "created", id := none,
    channel := "", timestamp := 5 }

/-- Run a list of cluster channel operations from a state. -/
def runCluster (ops : List (ClusterState → ClusterState × List Effect))
    (s : ClusterState) : ClusterState × List Effect :=
  match ops with
  | [] => (s, [])
  | op :: rest =>
    let c := op s
    let r := runCluster rest c.1
    (r.1, c.2 ++ r.2)

/-- Three consumers subscribe to topic `"T"` on a fresh single-node
channel, then all three stop consuming. -/
def redisThreeSubscriberTrace : List Effect :=
  (runRedis
    [redisSubEnter "T" 1, redisSubEnter "T" 2, redisSubEnter "T" 3,
     redisSubExit "T" 1, redisSubExit "T" 2, redisSubExit "T" 3]
    RedisState.init).2

/-- Three consumers subscribe to topic `"T"` on a fresh cluster channel,
then all three stop consuming. -/
def clusterThreeSubscriberTrace : List Effect :=
  (runCluster
    [clusterSubEnter "T" 1, clusterSubEnter "T" 2, clusterSubEnter "T" 3,
     clusterSubExit "T" 1, clusterSubExit "T" 2, clusterSubExit "T" 3]
    ClusterState.init).2

theorem decodeMessage_publishBody (m : ChannelMessage) (T : String) (now : Timestamp) :
    decodeMessage (.value (publishBody { m with channel := T })) T now
      = .ok { data := m.data, event := m.event, id := m.id, channel := T,
              timestamp := m.timestamp } := by
  have h1 : toOptStr (some (optStrJson m.event)) = .ok m.event := by
    cases m.event <;> rfl
  have h2 : toOptStr (some (optStrJson m.id)) = .ok m.id := by
    cases m.id <;> rfl
  have h3 := timestampField_isoformat m.timestamp now
  simp [decodeMessage, publishBody, jsonLoads, pyGet, List.lookup, h1, h2,
    channelField_self, h3, optJson, exceptBind_ok, exceptPure_def]

/-! ### Claims -/

/-- Frame body that is valid JSON but carries an unparseable timestamp
string: `{"timestamp": "not-a-date"}`. -/
def badTimestampFrame : Wire := .value (.obj [("timestamp", .str "not-a-date")])

/-- Reachable-state well-formedness of a `RedisChannel`: whenever the
channel is marked connected, `_ensure_connected` has installed both the
client and the pubsub handle. -/
def RedisWF (s : RedisState) : Prop :=
  s.connected = true → (s.hasRedis = true ∧ s.hasPubsub = true)

/-- C1: on every backend a topic (or pattern) has a live broker-side
subscription iff its registration set is non-empty (an invariant preserved
by every channel operation); the first subscribe for a topic issues
exactly one broker SUBSCRIBE (or sharded equivalent) and later subscribers
issue none; when the last consumer stops, exactly one UNSUBSCRIBE is
issued, and earlier-leaving consumers issue none — so a full
three-subscriber run emits one SUBSCRIBE and one UNSUBSCRIBE in total. -/
theorem C1_refcounted_subscriptions :
    (∀ s ch q, RedisInv s → RedisInv (redisSubEnter ch q s).1) ∧
    (∀ s ch q, RedisInv s → RedisInv (redisSubExit ch q s).1) ∧
    (∀ s p q, RedisInv s → RedisInv (redisPsubEnter p q s).1) ∧
    (∀ s p q, RedisInv s → RedisInv (redisPsubExit p q s).1) ∧
    (∀ s ch, RedisInv s → RedisInv (redisUnsubscribe ch s).1) ∧
    (∀ s, RedisInv (redisCloseOp s).1) ∧
    (∀ s ch q, ClusterInv s → ClusterInv (clusterSubEnter ch q s).1) ∧
    (∀ s ch q, ClusterInv s → ClusterInv (clusterSubExit ch q s).1) ∧
    (∀ s, ClusterInv s → ClusterInv (clusterCloseOp s).1) ∧
    (∀ s ch q, RedisInv s → getQs s.subscribers ch = [] →
       countEff (redisSubEnter ch q s).2 (isSubscribeFor ch) = 1) ∧
    (∀ s ch q, RedisInv s → getQs s.subscribers ch ≠ [] →
       countEff (redisSubEnter ch q s).2 (isSubscribeFor ch) = 0) ∧
    (∀ s ch q, RedisInv s → getQs s.subscribers ch ≠ [] →
       (getQs s.subscribers ch).filter (fun x => x ≠ q) = [] →
       countEff (redisSubExit ch q s).2 (isUnsubscribeFor ch) = 1) ∧
    (∀ s ch q, (getQs s.subscribers ch).filter (fun x => x ≠ q) ≠ [] →
       countEff (redisSubExit ch q s).2 (isUnsubscribeFor ch) = 0) ∧
    (∀ s p q, RedisInv s → getQs s.patternSubscribers p = [] →
       countEff (redisPsubEnter p q s).2 (isPSubscribeFor p) = 1) ∧
    (∀ s p q, RedisInv s → getQs s.patternSubscribers p ≠ [] →
       (getQs s.patternSubscribers p).filter (fun x => x ≠ q) = [] →
       countEff (redisPsubExit p q s).2 (isPUnsubscribeFor p) = 1) ∧
    (∀ s ch q, ClusterInv s → s.subscribers ch = none →
       countEff (clusterSubEnter ch q s).2 (isSSubscribeFor ch) = 1) ∧
    (∀ s ch q, (s.subscribers ch).isSome = true →
       countEff (clusterSubEnter ch q s).2 (isSSubscribeFor ch) = 0) ∧
    (∀ s ch q, ClusterInv s → (s.subscribers ch).isSome = true →
       (getQs s.subscribers ch).filter (fun x => x ≠ q) = [] →
       countEff (clusterSubExit ch q s).2 (isSUnsubscribeFor ch) = 1) ∧
    (∀ s ch q, (s.subscribers ch).isSome = true →
       (getQs s.subscribers ch).filter (fun x => x ≠ q) ≠ [] →
       countEff (clusterSubExit ch q s).2 (isSUnsubscribeFor ch) = 0) ∧
    countEff redisThreeSubscriberTrace (isSubscribeFor "T") = 1 ∧
    countEff redisThreeSubscriberTrace (isUnsubscribeFor "T") = 1 ∧
    countEff clusterThreeSubscriberTrace (isSSubscribeFor "T") = 1 ∧
    countEff clusterThreeSubscriberTrace (isSUnsubscribeFor "T") = 1 :=
  ⟨fun s ch q h => redisInv_subEnter ch q s h,
   fun s ch q h => redisInv_subExit ch q s h,
   fun s p q h => redisInv_psubEnter p q s h,
   fun s p q h => redisInv_psubExit p q s h,
   fun s ch h => redisInv_unsub ch s h,
   fun s => redisInv_close s,
   fun s ch q h => clusterInv_subEnter ch q s h,
   fun s ch q h => clusterInv_subExit ch q s h,
   fun s h => clusterInv_close s h,
   fun s ch q h he => redisSubEnter_first_count ch q s h he,
   fun s ch q h hn => redisSubEnter_again_count ch q s h hn,
   fun s ch q h hn he => redisSubExit_last_count ch q s h hn he,
   fun s ch q hne => redisSubExit_rest_count ch q s hne,
   fun s p q h he => redisPsubEnter_first_count p q s h he,
   fun s p q h hn he => redisPsubExit_last_count p q s h hn he,
   fun s ch q h hk => clusterSubEnter_first_count ch q s h hk,
   fun s ch q hk => clusterSubEnter_again_count ch q s hk,
   fun s ch q h hk he => clusterSubExit_last_count ch q s h hk he,
   fun s ch q hk hne => clusterSubExit_rest_count ch q s hk hne,
   by decide, by decide, by decide, by decide⟩

/-- Witness for C1 at concrete inputs: the fresh states satisfy the
invariant and the first subscriber to `"orders"` triggers exactly one
SUBSCRIBE (resp. SSUBSCRIBE). -/
theorem C1_refcounted_subscriptions_witness :
    RedisInv RedisState.init ∧
    getQs RedisState.init.subscribers "orders" = [] ∧
    countEff (redisSubEnter "orders" 1 RedisState.init).2
      (isSubscribeFor "orders") = 1 ∧
    ClusterInv ClusterState.init ∧
    RedisState.init.subscribers "orders" = none ∧
    countEff (clusterSubEnter "orders" 1 ClusterState.init).2
      (isSSubscribeFor "orders") = 1 :=
  ⟨redisInv_init, rfl,
   C1_refcounted_subscriptions.2.2.2.2.2.2.2.2.2.1 RedisState.init "orders" 1
     redisInv_init rfl,
   clusterInv_init, rfl,
   C1_refcounted_subscriptions.2.2.2.2.2.2.2.2.2.2.2.2.2.2.2.1 ClusterState.init
     "orders" 1 clusterInv_init rfl⟩

/-- C2: `pattern_subscribe` on the cluster channel fails with
`NotImplementedError` (its NotSupported error) before any broker call: the
state is unchanged and the effect list is empty. -/
theorem C2_cluster_psubscribe_not_supported :
    ∀ (s : ClusterState) (p : String),
      clusterPsubscribe p s = (.error .notImplementedError, s, ([] : List Effect)) :=
  fun _ _ => rfl

/-- C3: fan-out is non-blocking and per-consumer independent: the
single-node broadcast produces one result per registered queue, each
depending only on that queue's own contents — a full queue (1000 pending)
drops the message for that consumer alone while any queue with room
receives it; the cluster listener's enqueue never blocks because its
queues are unbounded, and it likewise appends to each queue
independently. -/
theorem C3_nonblocking_fanout :
    ∀ (queues : List (List ChannelMessage)) (m : ChannelMessage),
      (broadcastToQueues queues m).length = queues.length ∧
      (∀ i : Nat, (broadcastToQueues queues m)[i]?
        = (queues[i]?).map (fun qu => putNowait redisSubscribeQueueCapacity qu m)) ∧
      (∀ qu : List ChannelMessage, 1000 ≤ qu.length →
        putNowait redisSubscribeQueueCapacity qu m = (qu, false)) ∧
      (∀ qu : List ChannelMessage, qu.length < 1000 →
        putNowait redisSubscribeQueueCapacity qu m = (qu ++ [m], true)) ∧
      (∀ qu : List ChannelMessage, putBlocks clusterSubscribeQueueCapacity qu = false) ∧
      (∀ i : Nat, (clusterFanOut queues m)[i]?
        = (queues[i]?).map (fun qu => qu ++ [m])) :=
  fun queues m =>
    ⟨broadcastToQueues_length queues m,
     fun i => broadcastToQueues_getElem queues m i,
     fun qu h => putNowait_full qu m h,
     fun qu h => putNowait_room qu m h,
     fun _ => rfl,
     fun i => clusterFanOut_getElem queues m i⟩

/-- Witness for C3: with one full queue and one empty queue registered,
the full one drops while the empty one still receives the message. -/
theorem C3_nonblocking_fanout_witness :
    1000 ≤ (List.replicate 1000 sampleMessage).length ∧
    putNowait redisSubscribeQueueCapacity (List.replicate 1000 sampleMessage)
      sampleMessage = (List.replicate 1000 sampleMessage, false) ∧
    ([] : List ChannelMessage).length < 1000 ∧
    putNowait redisSubscribeQueueCapacity [] sampleMessage
      = ([sampleMessage], true) :=
  ⟨by rw [List.length_replicate],
   (C3_nonblocking_fanout [] sampleMessage).2.2.1 (List.replicate 1000 sampleMessage)
     (by rw [List.length_replicate]),
   by decide,
   (C3_nonblocking_fanout [] sampleMessage).2.2.2.1 [] (by decide)⟩

/-- C4: behaviour on undecodable frames.  Malformed JSON is caught, logged
and dropped on both backends.  But a frame whose timestamp string is
unparseable (or whose JSON shape is not an object) raises `ValueError`
(resp. `AttributeError`), which the except clause
`(json.JSONDecodeError, KeyError, TypeError)` does not catch: on the
single-node backend the error still dies in the listener's generic
handler, yet on the cluster backend it escapes the subscriber's async
generator and surfaces at the consumer — contradicting the claim.
Well-formed frames keep being delivered on both backends. -/
theorem C4_decode_error_surfaces_on_cluster :
    clusterConsumeStep badTimestampFrame "orders" 7 = .raised .valueError ∧
    clusterConsumeStep (.value (.arr [])) "orders" 7 = .raised .attributeError ∧
    redisHandleFrame badTimestampFrame "orders" 7 [[], []]
      = .droppedListener .valueError ∧
    redisHandleFrame (.malformed "not json") "orders" 7 [[], []]
      = .droppedCaught .jsonDecodeError ∧
    clusterConsumeStep (.malformed "not json") "orders" 7
      = .loggedSkip .jsonDecodeError ∧
    redisHandleFrame (.value (publishBody { sampleMessage with channel := "orders" }))
      "orders" 7 [[], []]
      = .delivered [([{ sampleMessage with channel := "orders" }], true),
                    ([{ sampleMessage with channel := "orders" }], true)] ∧
    clusterConsumeStep (.value (publishBody { sampleMessage with channel := "orders" }))
      "orders" 7 = .yielded { sampleMessage with channel := "orders" } :=
  ⟨rfl, rfl, rfl, rfl, rfl, rfl, rfl⟩

/-- C5: round-trip.  `publish(T, m)` writes a JSON object with exactly the
keys `data, event, id, channel, timestamp`, and decoding that frame yields
a message with `m`'s `data`, `event` and `id`, channel `T`, and `m`'s
(non-null) timestamp. -/
theorem C5_publish_roundtrip :
    ∀ (m : ChannelMessage) (T : String) (now : Timestamp),
      (publishBody { m with channel := T }).objKeys
        = ["data", "event", "id", "channel", "timestamp"] ∧
      decodeMessage (.value (publishBody { m with channel := T })) T now
        = .ok { data := m.data, event := m.event, id := m.id, channel := T,
                timestamp := m.timestamp } :=
  fun m T now => ⟨rfl, decodeMessage_publishBody m T now⟩

/-- C6: `close()` is idempotent on both backends: the first close resets
the single-node channel to its initial state, and a second close performs
no effects and leaves the state unchanged (likewise on the cluster
channel, whose second close is a guarded no-op). -/
theorem C6_close_idempotent :
    ∀ (s : RedisState) (t : ClusterState),
      (redisCloseOp s).1 = RedisState.init ∧
      redisCloseOp (redisCloseOp s).1 = (RedisState.init, []) ∧
      clusterCloseOp (clusterCloseOp t).1 = ((clusterCloseOp t).1, []) := by
  intro s t
  refine ⟨rfl, rfl, ?_⟩
  by_cases hc : t.connected = true
  · simp [clusterCloseOp, hc]
  · simp [clusterCloseOp, hc]

/-- C7: after `close()`, a `publish` on the single-node channel
transparently reconnects (one `connect` effect), succeeds, and performs
the broker write — it does not fail with a closed-channel error. -/
theorem C7_publish_after_close :
    ∀ (s : RedisState) (ch : String) (m : ChannelMessage),
      redisPublish ch m (redisCloseOp s).1
        = (.ok { m with channel := ch },
           { RedisState.init with connected := true, hasRedis := true, hasPubsub := true },
           [.connect, .brokerPublish ch (publishBody { m with channel := ch })]) :=
  fun _ _ _ => rfl

/-- C9: `publish` performs exactly one broker write per call on either
backend, and its only effect on the message is to set `channel` to the
topic: `data`, `event`, `id` and `timestamp` are unchanged. -/
theorem C9_publish_frame :
    ∀ (s : RedisState) (t : ClusterState) (ch : String) (m : ChannelMessage),
      RedisWF s →
      (redisPublish ch m s).1 = .ok { m with channel := ch } ∧
      countEff (redisPublish ch m s).2.2 isPublishEff = 1 ∧
      (clusterPublish ch m t).1 = { m with channel := ch } ∧
      countEff (clusterPublish ch m t).2.2 isPublishEff = 1 ∧
      ({ m with channel := ch }).data = m.data ∧
      ({ m with channel := ch }).event = m.event ∧
      ({ m with channel := ch }).id = m.id ∧
      ({ m with channel := ch }).timestamp = m.timestamp ∧
      ({ m with channel := ch }).channel = ch := by
  intro s t ch m hwf
  have hr : (redisPublish ch m s).1 = .ok { m with channel := ch } ∧
      countEff (redisPublish ch m s).2.2 isPublishEff = 1 := by
    by_cases hc : s.connected = true
    · have hred := (hwf hc).1
      constructor <;>
        simp [redisPublish, ensureConnected, hc, hred, countEff, isPublishEff]
    · constructor <;>
        simp [redisPublish, ensureConnected, hc, countEff, isPublishEff]
  have hcl : (clusterPublish ch m t).1 = { m with channel := ch } ∧
      countEff (clusterPublish ch m t).2.2 isPublishEff = 1 := by
    by_cases hc : t.connected = true
    · constructor <;>
        simp [clusterPublish, clusterEnsureConnected, hc, countEff, isPublishEff]
    · constructor <;>
        simp [clusterPublish, clusterEnsureConnected, hc, countEff, isPublishEff]
  exact ⟨hr.1, hr.2, hcl.1, hcl.2, rfl, rfl, rfl, rfl, rfl⟩

/-- Witness for C9 on a fresh channel publishing `sampleMessage` to
`"orders"`. -/
theorem C9_publish_frame_witness :
    RedisWF RedisState.init ∧
    (redisPublish "orders" sampleMessage RedisState.init).1
      = .ok { sampleMessage with channel := "orders" } ∧
    countEff (redisPublish "orders" sampleMessage RedisState.init).2.2
      isPublishEff = 1 ∧
    (clusterPublish "orders" sampleMessage ClusterState.init).1
      = { sampleMessage with channel := "orders" } :=
  have h := C9_publish_frame RedisState.init ClusterState.init "orders" sampleMessage
    (fun hc => absurd hc (by decide))
  ⟨fun hc => absurd hc (by decide), h.1, h.2.1, h.2.2.1⟩

/-- C10: explicit `unsubscribe(topic)` on the single-node channel: while
the topic is live it issues exactly one UNSUBSCRIBE, drops the topic from
the subscribed set, discards the whole registration set (so later frames
for the topic fan out to no queue), and touches no other topic and no
pattern state; when the topic is not live the call returns with the state
unchanged and no effects. -/
theorem C10_explicit_unsubscribe :
    ∀ (s : RedisState) (ch : String),
      (s.hasPubsub = true → s.subscribedChannels ch = true →
        (redisUnsubscribe ch s).2 = [.brokerUnsubscribe ch] ∧
        (redisUnsubscribe ch s).1.subscribedChannels ch = false ∧
        (redisUnsubscribe ch s).1.subscribers ch = none ∧
        getQs (redisUnsubscribe ch s).1.subscribers ch = [] ∧
        (∀ x, x ≠ ch →
          (redisUnsubscribe ch s).1.subscribers x = s.subscribers x ∧
          (redisUnsubscribe ch s).1.subscribedChannels x = s.subscribedChannels x) ∧
        (redisUnsubscribe ch s).1.patternSubscribers = s.patternSubscribers) ∧
      (s.subscribedChannels ch = false → redisUnsubscribe ch s = (s, [])) := by
  intro s ch
  constructor
  · intro hp hc
    have hcond : s.hasPubsub = true ∧ s.subscribedChannels ch = true := ⟨hp, hc⟩
    refine ⟨?_, ?_, ?_, ?_, ?_, ?_⟩ <;>
      simp [redisUnsubscribe, hcond, removeStr_self, delKey_self_eq, getQs_delKey_self]
    intro x hx
    simp [delKey_other_eq _ _ _ hx, removeStr_other _ _ _ hx]
  · intro hnc
    have hcond : ¬(s.hasPubsub = true ∧ s.subscribedChannels ch = true) := by
      intro hcnd
      rw [hcnd.2] at hnc
      cases hnc
    simp [redisUnsubscribe, hcond]

/-- Witness for C10: unsubscribing `"T"` on a channel with one live
subscriber to `"T"` issues the UNSUBSCRIBE; unsubscribing an unknown topic
on a fresh channel is a no-op. -/
theorem C10_explicit_unsubscribe_witness :
    (redisSubEnter "T" 1 RedisState.init).1.hasPubsub = true ∧
    (redisSubEnter "T" 1 RedisState.init).1.subscribedChannels "T" = true ∧
    (redisUnsubscribe "T" (redisSubEnter "T" 1 RedisState.init).1).2
      = [.brokerUnsubscribe "T"] ∧
    RedisState.init.subscribedChannels "zzz" = false ∧
    redisUnsubscribe "zzz" RedisState.init = (RedisState.init, []) :=
  ⟨rfl, by decide,
   ((C10_explicit_unsubscribe (redisSubEnter "T" 1 RedisState.init).1 "T").1
     rfl (by decide)).1,
   rfl,
   (C10_explicit_unsubscribe RedisState.init "zzz").2 rfl⟩

/-- C8 counterexample: the consumer queue created by the cluster channel's
`subscribe` is unbounded (`asyncio.Queue()` with `maxsize=0`), not a
bounded FIFO of capacity ~1000: an enqueue on a queue already holding
2000 pending messages still succeeds and grows it to 2001. -/
theorem C8_counterexample_unbounded_cluster_queue :
    clusterSubscribeQueueCapacity = none ∧
    putNowait clusterSubscribeQueueCapacity (List.replicate 2000 sampleMessage)
      sampleMessage = (List.replicate 2000 sampleMessage ++ [sampleMessage], true) ∧
    (List.replicate 2000 sampleMessage ++ [sampleMessage]).length = 2001 :=
  ⟨rfl, rfl, by rw [List.length_append, List.length_replicate, List.length_singleton]⟩

/-- C8 (amended): on the single-node channel, every consumer queue created
by `subscribe` or `psubscribe` is a bounded FIFO of capacity 1000 — so a
single-node consumer never exceeds 1000 pending messages — while the
cluster channel's `subscribe` creates an unbounded queue. -/
theorem C8_queue_capacities :
    redisSubscribeQueueCapacity = some 1000 ∧
    redisPsubscribeQueueCapacity = some 1000 ∧
    clusterSubscribeQueueCapacity = none ∧
    (∀ (qu : List ChannelMessage) (m : ChannelMessage), qu.length ≤ 1000 →
      ((putNowait redisSubscribeQueueCapacity qu m).1).length ≤ 1000) := by
  refine ⟨rfl, rfl, rfl, ?_⟩
  intro qu m h
  by_cases hlt : qu.length < 1000
  · rw [putNowait_room qu m hlt]
    simp
    omega
  · rw [putNowait_full qu m (Nat.le_of_not_lt hlt)]
    exact h

/-- Witness for the amended C8: a single-node queue at the bound keeps the
bound after an enqueue attempt (the message is dropped). -/
theorem C8_queue_capacities_witness :
    (List.replicate 1000 sampleMessage).length ≤ 1000 ∧
    ((putNowait redisSubscribeQueueCapacity (List.replicate 1000 sampleMessage)
      sampleMessage).1).length ≤ 1000 :=
  ⟨by rw [List.length_replicate],
   C8_queue_capacities.2.2.2 (List.replicate 1000 sampleMessage) sampleMessage
     (by rw [List.length_replicate])⟩

end AuryBoot
